import Mathlib

/-!
# Verification of the prometheus_service_exporter liveness/statistics core

Shallow embedding of the Go sources of `trustly/prometheus_service_exporter`.
The repository carries two versions of the exporter: the full one
(`src/unnamed/part_001`, with CPU/memory/uptime metrics, stat-record length
guard `< 25`) and a reduced one (`src/exporter.go`, start-time metric only,
length guard `< 20`).  The state-machine functions (`reset`,
`verifyStillRunning`, `findPID`, `scrape`, `Collect`) are embedded from the
full version; where the two versions differ in a way a claim depends on
(the stat-record length guard), both variants are embedded.

External collaborators (the `service <name> status` command and the
`/proc/<pid>/stat` file) are modelled as oracles: each call site receives the
value that call would have returned.  Paths on which the Go code fatally
aborts the whole process (`log.Fatalf`, `elog.Fatalf`, `panic`, `os.Exit`)
are modelled as `none` of an outer `Option`: a `none` result means the
process terminated and no value was ever returned to the caller.

Numeric fields are modelled as `Int`.  The Go code converts some quantities
through `float64`; on the integer-valued inputs appearing in the claims the
float arithmetic is exact, so the integer model coincides with it there.
-/

namespace ServiceExporter

/-! ## Field indices of /proc/<pid>/stat (constants from the source) -/

def PROC_PID_STAT_STARTTIME : Nat := 21
def PROC_PID_STAT_UTIME : Nat := 15
def PROC_PID_STAT_STIME : Nat := 16
def PROC_PID_STAT_CUTIME : Nat := 17
def PROC_PID_STAT_CSTIME : Nat := 18
def PROC_PID_STAT_VSIZE : Nat := 22
def PROC_PID_STAT_RSS : Nat := 23

/-! ## The per-service mutable record (struct `service` in the source) -/

/-- Embeds the Go struct `service` (full version): the identity pair
(`pid`, `procStatStartTime`) is constant while the service is up, and the
four accounting fields are re-populated on each scrape. -/
structure Service where
  name : String
  pid : Int
  procStatStartTime : Int
  procStatCPUSelfTime : Int
  procStatCPUTime : Int
  procStatVSize : Int
  procStatRSS : Int
deriving DecidableEq, Repr

/-- `service.reset()`: clear identity to the sentinel `-1` and zero the
accounting fields. -/
def Service.reset (svc : Service) : Service :=
  { svc with
    pid := -1
    procStatStartTime := -1
    procStatCPUSelfTime := 0
    procStatCPUTime := 0
    procStatVSize := 0
    procStatRSS := 0 }

/-- The freshly constructed `service` of `newSvcCollector`: Go zero values
for every numeric field, before the constructor calls `reset()`. -/
def initService (n : String) : Service :=
  { name := n
    pid := 0
    procStatStartTime := 0
    procStatCPUSelfTime := 0
    procStatCPUTime := 0
    procStatVSize := 0
    procStatRSS := 0 }

/-! ## Oracles for the external collaborators -/

/-- Raw outcome of one attempt to read and parse `/proc/<pid>/stat`:
either the file does not exist (`os.IsNotExist`, the process is gone), or it
was read and every consulted field parsed as an integer.  (A field failing
`strconv.ParseInt` makes the Go code fatally abort; those runs are covered
by the `none`/fatal results of the functions below, so the record carries
already-parsed integers.) -/
inductive StatResult where
  | gone
  | record (fields : List Int)
deriving DecidableEq, Repr

/-- Positional access into a stat record, `procStatData[i]`.  Every use in
the source is guarded by the length check of `readProcStatData`, which makes
the default of `getD` unreachable there. -/
def statField (d : List Int) (i : Nat) : Int :=
  d.getD i 0

/-- `service.readProcStatData()` of the full version.  Outer `none`: the
process fatally aborted (record shorter than 25 fields, or an unexpected
read error).  `some none`: the `os.IsNotExist` error is returned
(ProcessGone).  `some (some d)`: the record is returned. -/
def readProcStatData (r : StatResult) : Option (Option (List Int)) :=
  match r with
  | .gone => some none
  | .record d => if d.length < 25 then none else some (some d)

/-- One answer of the external status source (`service <name> status`):
`none` models the `errServiceNotRunning` return, `some p` a reported pid.
All other outcomes of `askServiceForPID` fatally abort the exporter and
never return to the caller. -/
abbrev StatusAnswer := Option Int

/-! ## verifyStillRunning -/

/-- `service.verifyStillRunning()`: re-reads the stat record for the stored
pid and compares the fresh start-tick with the stored one.  Result `none` is
a fatal abort; `some (s, none)` means the service was reset and
`stillRunning = false`; `some (s, some d)` means the fresh record `d` is
valid and the service is unchanged. -/
def Service.verifyStillRunning (svc : Service) (r : StatResult) :
    Option (Service × Option (List Int)) :=
  match readProcStatData r with
  | none => none
  | some none => some (svc.reset, none)
  | some (some d) =>
    if statField d PROC_PID_STAT_STARTTIME ≠ svc.procStatStartTime then
      some (svc.reset, none)
    else
      some (svc, some d)

/-! ## findPID -/

/-- The oracle answers consumed by one call of `service.findPID()`, in
program order: the first status query, the stat read for the pid it
reported, and the second status query. -/
structure FindPIDEnv where
  ask1 : StatusAnswer
  statRead : StatResult
  ask2 : StatusAnswer
deriving DecidableEq, Repr

/-- `service.findPID()`: the three-step discovery protocol.  Go's multiple
assignment `svc.pid, err = svc.askServiceForPID()` writes the zero pid on
the not-running path before `reset()` overwrites it, which the first branch
reproduces.  Result `none` is a fatal abort; `some (s, none)` models the
`errServiceNotRunning` return with `s` the reset state; `some (s, some d)`
models the committed transition with record `d` returned. -/
def Service.findPID (svc : Service) (env : FindPIDEnv) :
    Option (Service × Option (List Int)) :=
  match env.ask1 with
  | none => some (({ svc with pid := 0 }).reset, none)
  | some p =>
    let svc1 : Service := { svc with pid := p }
    match readProcStatData env.statRead with
    | none => none
    | some none => some (svc1.reset, none)
    | some (some d) =>
      match env.ask2 with
      | none => some (svc1.reset, none)
      | some p2 =>
        if p2 ≠ svc1.pid then
          some (svc1.reset, none)
        else
          some ({ svc1 with
                  procStatStartTime := statField d PROC_PID_STAT_STARTTIME },
                some d)

/-! ## scrape -/

/-- The oracle answers one call of `SvcCollector.scrape` may consume: the
stat read of `verifyStillRunning` (used only when the service is believed
running) and the three answers of `findPID` (used only when the service is
not running when discovery starts). -/
structure ScrapeEnv where
  verifyRead : StatResult
  find : FindPIDEnv
deriving DecidableEq, Repr

/-- The tail of `scrape`: populate the four accounting fields from the
record of this cycle.  `procStatCPUTime` is computed from the freshly
assigned `procStatCPUSelfTime`, as in the source. -/
def Service.updateSnapshot (svc : Service) (d : List Int) : Service :=
  let selfTime := statField d PROC_PID_STAT_UTIME + statField d PROC_PID_STAT_STIME
  { svc with
    procStatCPUSelfTime := selfTime
    procStatCPUTime := selfTime + statField d PROC_PID_STAT_CUTIME
      + statField d PROC_PID_STAT_CSTIME
    procStatVSize := statField d PROC_PID_STAT_VSIZE
    procStatRSS := statField d PROC_PID_STAT_RSS }

/-- `SvcCollector.scrape(svc)` of the full version.  Result `none` is a
fatal abort; `some (s, true)` models the `errServiceNotRunning` return with
`s` the resulting state; `some (s, false)` a nil-error return after the
accounting fields were populated. -/
def scrape (svc : Service) (env : ScrapeEnv) : Option (Service × Bool) :=
  let phase1 : Option (Service × Option (List Int)) :=
    if svc.pid ≠ -1 then
      svc.verifyStillRunning env.verifyRead
    else
      some (svc, none)
  match phase1 with
  | none => none
  | some (svc1, pd1) =>
    let phase2 : Option (Service × Option (List Int) × Bool) :=
      if svc1.pid = -1 then
        match svc1.findPID env.find with
        | none => none
        | some (svc2, none) => some (svc2, none, true)
        | some (svc2, some d) => some (svc2, some d, false)
      else
        some (svc1, pd1, false)
    match phase2 with
    | none => none
    | some (_, none, false) => none
    | some (svc2, _, true) => some (svc2, true)
    | some (svc2, some d, false) => some (svc2.updateSnapshot d, false)

/-! ## Collect: metric emission -/

/-- The six per-service sample values one `Collect` cycle publishes for one
service, in source order: `service_process_start`,
`service_cpu_self_time_total`, `service_cpu_time_total`,
`service_current_vsize`, `service_current_rss`,
`service_process_uptime_seconds`. -/
structure Metrics where
  processStart : Int
  cpuSelfTime : Int
  cpuTime : Int
  vsize : Int
  rss : Int
  uptimeSeconds : Int
deriving DecidableEq, Repr

/-- The per-service metric block of `SvcCollector.Collect`, after the stat
fields of the cycle are in place.  `systemUptimeInTicks` is the value the
loop computed once from `/proc/uptime`; note that the uptime branch
multiplies the tick difference by `_SC_CLK_TCK`, exactly as the source
does on line `float64(systemUptimeInTicks - svc.procStatStartTime) *
float64(_SC_CLK_TCK)`. -/
def emitServiceMetrics (clkTck systemUptimeInTicks : Int) (svc : Service) :
    Metrics :=
  { processStart := svc.procStatStartTime
    cpuSelfTime := svc.procStatCPUSelfTime
    cpuTime := svc.procStatCPUTime
    vsize := svc.procStatVSize
    rss := svc.procStatRSS
    uptimeSeconds :=
      if svc.pid = -1 then -1
      else (systemUptimeInTicks - svc.procStatStartTime) * clkTck }

/-- The uptime formula as the specification states it:
`(systemUptimeTicks − startTick) / tickRate`.  Kept separate so it can be
compared with the value `emitServiceMetrics` actually publishes. -/
def specUptimeSeconds (clkTck systemUptimeInTicks startTick : Int) : Int :=
  (systemUptimeInTicks - startTick) / clkTck

/-- The first loop of `Collect`: scrape every tracked service in turn,
discarding per-service errors (`_ = c.scrape(svc)`).  `none` only when some
scrape fatally aborted the process. -/
def scrapeAll : List (Service × ScrapeEnv) → Option (List Service)
  | [] => some []
  | p :: ps =>
    match scrape p.1 p.2 with
    | none => none
    | some (s, _) =>
      match scrapeAll ps with
      | none => none
      | some ss => some (s :: ss)

/-- `SvcCollector.Collect`: scrape every service (errors discarded), read
the system uptime once, convert it to ticks
(`systemUptimeInTicks := systemUptimeInSeconds * _SC_CLK_TCK`), then emit
the six per-service samples for every tracked service. -/
def Collect (clkTck systemUptimeSeconds : Int)
    (pairs : List (Service × ScrapeEnv)) :
    Option (List (Service × Metrics)) :=
  match scrapeAll pairs with
  | none => none
  | some ss =>
    let ticks := systemUptimeSeconds * clkTck
    some (ss.map fun s => (s, emitServiceMetrics clkTck ticks s))

/-- What `Collect` contributes for a single tracked service: its scrape
outcome (error discarded) followed by its six emitted samples.  Used to
state that each service's published block depends on that service's own
state and oracle answers alone. -/
def collectOne (clkTck systemUptimeInTicks : Int)
    (p : Service × ScrapeEnv) : Option (Service × Metrics) :=
  match scrape p.1 p.2 with
  | none => none
  | some (s, _) => some (s, emitServiceMetrics clkTck systemUptimeInTicks s)

/-! ## Repeated poll cycles -/

/-- The states a service passes through under a sequence of scrape cycles
(one `ScrapeEnv` of oracle answers per cycle); `none` when some cycle
fatally aborted. -/
def pollTrace : Service → List ScrapeEnv → Option (List Service)
  | _, [] => some []
  | svc, e :: es =>
    match scrape svc e with
    | none => none
    | some (s, _) =>
      match pollTrace s es with
      | none => none
      | some tr => some (s :: tr)

/-! ## newSvcCollector: the service map -/

/-- Go map insertion `m[k] = v`: overwrite the entry when the key is
present, append otherwise.  The services field of `SvcCollector` is a
`map[string]*service`. -/
def mapInsert (m : List (String × Service)) (k : String) (v : Service) :
    List (String × Service) :=
  if m.any (fun kv => kv.1 = k) then
    m.map (fun kv => if kv.1 = k then (k, v) else kv)
  else
    m ++ [(k, v)]

/-- The service map built by `newSvcCollector`: for each name on the
command line, insert a fresh zeroed `service` and `reset()` it. -/
def newSvcCollector (serviceNames : List String) :
    List (String × Service) :=
  serviceNames.foldl (fun m n => mapInsert m n (initService n).reset) []

/-! ## The stat-record length guards of the two versions -/

/-- The length guard of `readProcStatData` in the reduced version
(`src/exporter.go`): a record is accepted (the fatal branch not taken) when
it has at least 20 space-separated fields. -/
def statRecordAcceptedV0 (fields : List String) : Bool :=
  if fields.length < 20 then false else true

/-- The length guard of `readProcStatData` in the full version: a record is
accepted when it has at least 25 fields. -/
def statRecordAcceptedFull (fields : List String) : Bool :=
  if fields.length < 25 then false else true

/-- The field indices read from an accepted record in the reduced version:
only the start-tick, `procStatData[21]`, in `verifyStillRunning` and
`findPID`. -/
def statIndicesReadV0 : List Nat := [PROC_PID_STAT_STARTTIME]

/-- The field indices read from an accepted record in the full version:
the start-tick in `verifyStillRunning`/`findPID` and the six accounting
fields in `scrape`. -/
def statIndicesReadFull : List Nat :=
  [PROC_PID_STAT_UTIME, PROC_PID_STAT_STIME, PROC_PID_STAT_CUTIME,
   PROC_PID_STAT_CSTIME, PROC_PID_STAT_STARTTIME, PROC_PID_STAT_VSIZE,
   PROC_PID_STAT_RSS]

/-! ## State predicates and environment well-formedness -/

/-- The documented state invariant: the pid is the sentinel exactly when
the start-tick is, and a not-running service carries an all-zero
snapshot. -/
def stateInvariant (svc : Service) : Prop :=
  (svc.pid = -1 ↔ svc.procStatStartTime = -1) ∧
  (svc.pid = -1 →
    svc.procStatCPUSelfTime = 0 ∧ svc.procStatCPUTime = 0 ∧
    svc.procStatVSize = 0 ∧ svc.procStatRSS = 0)

instance (svc : Service) : Decidable (stateInvariant svc) := by
  unfold stateInvariant
  infer_instance

/-- A service state holding exactly the values `reset()` writes. -/
def isResetState (svc : Service) : Prop :=
  svc.pid = -1 ∧ svc.procStatStartTime = -1 ∧
  svc.procStatCPUSelfTime = 0 ∧ svc.procStatCPUTime = 0 ∧
  svc.procStatVSize = 0 ∧ svc.procStatRSS = 0

instance (svc : Service) : Decidable (isResetState svc) := by
  unfold isResetState
  infer_instance

/-- A status answer is well-formed when any reported pid is a real Linux
pid (non-negative, hence distinct from the sentinel `-1`). -/
def statusAnswerWF : StatusAnswer → Bool
  | none => true
  | some p => decide (0 ≤ p)

/-- A stat-read outcome is well-formed when the start-tick field of a
delivered record is non-negative (kernel start ticks are unsigned, hence
distinct from the sentinel `-1`). -/
def statResultWF : StatResult → Bool
  | .gone => true
  | .record d => decide (0 ≤ statField d PROC_PID_STAT_STARTTIME)

/-- Well-formedness of the oracle answers of one scrape: pids reported by
the status source are non-negative and start-tick fields of delivered
records are non-negative. -/
def scrapeEnvWF (env : ScrapeEnv) : Bool :=
  statusAnswerWF env.find.ask1 && statResultWF env.find.statRead

/-! ## Basic lemmas about reset and the sample record shapes -/

theorem reset_pid (svc : Service) : (svc.reset).pid = -1 := rfl

theorem reset_startTime (svc : Service) : (svc.reset).procStatStartTime = -1 := rfl

theorem reset_isResetState (svc : Service) : isResetState svc.reset := by
  refine ⟨rfl, rfl, rfl, rfl, rfl, rfl⟩

theorem reset_idem (svc : Service) : svc.reset.reset = svc.reset := rfl

theorem reset_update_pid (svc : Service) (q : Int) :
    ({ svc with pid := q } : Service).reset = svc.reset := rfl

theorem reset_stateInvariant (svc : Service) : stateInvariant svc.reset := by
  exact ⟨Iff.rfl, fun _ => ⟨rfl, rfl, rfl, rfl⟩⟩

/-! ## Equation lemmas for readProcStatData -/

theorem readProcStatData_gone : readProcStatData .gone = some none := rfl

theorem readProcStatData_short (d : List Int) (h : d.length < 25) :
    readProcStatData (.record d) = none := by
  simp [readProcStatData, h]

theorem readProcStatData_ok (d : List Int) (h : ¬ d.length < 25) :
    readProcStatData (.record d) = some (some d) := by
  simp [readProcStatData, h]

theorem readProcStatData_some_some (r : StatResult) (d : List Int)
    (h : readProcStatData r = some (some d)) :
    r = .record d ∧ ¬ d.length < 25 := by
  cases r with
  | gone => simp [readProcStatData] at h
  | record d0 =>
    by_cases hl : d0.length < 25
    · simp [readProcStatData, hl] at h
    · simp [readProcStatData, hl] at h
      subst h
      exact ⟨rfl, hl⟩

/-! ## Equation lemmas for verifyStillRunning -/

theorem verify_gone (svc : Service) :
    svc.verifyStillRunning .gone = some (svc.reset, none) := rfl

theorem verify_short (svc : Service) (d : List Int) (h : d.length < 25) :
    svc.verifyStillRunning (.record d) = none := by
  simp [Service.verifyStillRunning, readProcStatData_short d h]

theorem verify_mismatch (svc : Service) (d : List Int) (h : ¬ d.length < 25)
    (hne : statField d PROC_PID_STAT_STARTTIME ≠ svc.procStatStartTime) :
    svc.verifyStillRunning (.record d) = some (svc.reset, none) := by
  simp [Service.verifyStillRunning, readProcStatData_ok d h, hne]

theorem verify_match (svc : Service) (d : List Int) (h : ¬ d.length < 25)
    (he : statField d PROC_PID_STAT_STARTTIME = svc.procStatStartTime) :
    svc.verifyStillRunning (.record d) = some (svc, some d) := by
  simp [Service.verifyStillRunning, readProcStatData_ok d h, he]

/-! ## Equation lemmas for findPID -/

theorem findPID_ask1_none (svc : Service) (sr : StatResult) (a2 : StatusAnswer) :
    svc.findPID ⟨none, sr, a2⟩ = some (svc.reset, none) := rfl

theorem findPID_gone (svc : Service) (p : Int) (a2 : StatusAnswer) :
    svc.findPID ⟨some p, .gone, a2⟩ = some (svc.reset, none) := rfl

theorem findPID_short (svc : Service) (p : Int) (d : List Int)
    (a2 : StatusAnswer) (h : d.length < 25) :
    svc.findPID ⟨some p, .record d, a2⟩ = none := by
  simp [Service.findPID, readProcStatData_short d h]

theorem findPID_ask2_none (svc : Service) (p : Int) (d : List Int)
    (h : ¬ d.length < 25) :
    svc.findPID ⟨some p, .record d, none⟩ = some (svc.reset, none) := by
  simp [Service.findPID, readProcStatData_ok d h]
  rfl

theorem findPID_mismatch (svc : Service) (p p2 : Int) (d : List Int)
    (h : ¬ d.length < 25) (hp : p2 ≠ p) :
    svc.findPID ⟨some p, .record d, some p2⟩ = some (svc.reset, none) := by
  simp [Service.findPID, readProcStatData_ok d h, hp]
  rfl

theorem findPID_commit (svc : Service) (p : Int) (d : List Int)
    (h : ¬ d.length < 25) :
    svc.findPID ⟨some p, .record d, some p⟩ =
      some ({ svc with
              pid := p
              procStatStartTime := statField d PROC_PID_STAT_STARTTIME },
            some d) := by
  simp [Service.findPID, readProcStatData_ok d h]

/-- The committed discovery, stated on the projections of the environment
rather than on its constructor. -/
theorem findPID_commit_of (svc : Service) (env : FindPIDEnv) (p : Int)
    (d : List Int) (h1 : env.ask1 = some p)
    (hrd : readProcStatData env.statRead = some (some d))
    (h2 : env.ask2 = some p) :
    svc.findPID env =
      some ({ svc with
              pid := p
              procStatStartTime := statField d PROC_PID_STAT_STARTTIME },
            some d) := by
  obtain ⟨hsr, hl⟩ := readProcStatData_some_some env.statRead d hrd
  obtain ⟨a1, sr, a2⟩ := env
  simp only at h1 h2 hsr
  subst h1
  subst h2
  subst hsr
  exact findPID_commit svc p d hl

/-! ## Shape lemmas for findPID and verifyStillRunning results -/

/-- Every not-running return of `findPID` leaves the service fully reset. -/
theorem findPID_err_isReset (svc : Service) (env : FindPIDEnv) (s : Service)
    (h : svc.findPID env = some (s, none)) : isResetState s := by
  obtain ⟨a1, sr, a2⟩ := env
  cases a1 with
  | none =>
    rw [findPID_ask1_none] at h
    cases h
    exact reset_isResetState svc
  | some p =>
    cases sr with
    | gone =>
      rw [findPID_gone] at h
      cases h
      exact reset_isResetState svc
    | record d =>
      by_cases hl : d.length < 25
      · rw [findPID_short svc p d _ hl] at h
        cases h
      · cases a2 with
        | none =>
          rw [findPID_ask2_none svc p d hl] at h
          cases h
          exact reset_isResetState svc
        | some p2 =>
          by_cases hp : p2 = p
          · subst hp
            rw [findPID_commit svc p2 d hl] at h
            cases h
          · rw [findPID_mismatch svc p p2 d hl hp] at h
            cases h
            exact reset_isResetState svc

/-- Every committed return of `findPID` reveals the protocol that produced
it: both status queries answered with the committed pid, the stat read
delivered exactly the returned record, and the new state stores the queried
pid together with the record's start-tick. -/
theorem findPID_some_shape (svc : Service) (env : FindPIDEnv) (s : Service)
    (d : List Int) (h : svc.findPID env = some (s, some d)) :
    env.ask1 = some s.pid ∧ env.statRead = .record d ∧ ¬ d.length < 25 ∧
    env.ask2 = some s.pid ∧
    s = { svc with
          pid := s.pid
          procStatStartTime := statField d PROC_PID_STAT_STARTTIME } := by
  obtain ⟨a1, sr, a2⟩ := env
  cases a1 with
  | none =>
    rw [findPID_ask1_none] at h
    cases h
  | some p =>
    cases sr with
    | gone =>
      rw [findPID_gone] at h
      cases h
    | record d0 =>
      by_cases hl : d0.length < 25
      · rw [findPID_short svc p d0 _ hl] at h
        cases h
      · cases a2 with
        | none =>
          rw [findPID_ask2_none svc p d0 hl] at h
          cases h
        | some p2 =>
          by_cases hp : p2 = p
          · subst hp
            rw [findPID_commit svc p2 d0 hl] at h
            obtain ⟨h1, h2⟩ := Prod.mk.injEq .. ▸ (Option.some.injEq .. ▸ h)
            obtain rfl := Option.some.injEq .. ▸ h2
            subst h1
            exact ⟨rfl, rfl, hl, rfl, rfl⟩
          · rw [findPID_mismatch svc p p2 d0 hl hp] at h
            cases h

/-- A verification failure always returns the fully reset state. -/
theorem verify_fail_shape (svc : Service) (r : StatResult) (s : Service)
    (h : svc.verifyStillRunning r = some (s, none)) : s = svc.reset := by
  cases r with
  | gone =>
    rw [verify_gone] at h
    cases h
    rfl
  | record d =>
    by_cases hl : d.length < 25
    · rw [verify_short svc d hl] at h
      cases h
    · by_cases he : statField d PROC_PID_STAT_STARTTIME = svc.procStatStartTime
      · rw [verify_match svc d hl he] at h
        cases h
      · rw [verify_mismatch svc d hl he] at h
        cases h
        rfl

/-- A verification success returns the unchanged state with the record the
guarded read delivered. -/
theorem verify_ok_shape (svc : Service) (r : StatResult) (s : Service)
    (d : List Int) (h : svc.verifyStillRunning r = some (s, some d)) :
    s = svc ∧ readProcStatData r = some (some d) ∧
    statField d PROC_PID_STAT_STARTTIME = svc.procStatStartTime := by
  cases r with
  | gone =>
    rw [verify_gone] at h
    cases h
  | record d0 =>
    by_cases hl : d0.length < 25
    · rw [verify_short svc d0 hl] at h
      cases h
    · by_cases he : statField d0 PROC_PID_STAT_STARTTIME = svc.procStatStartTime
      · rw [verify_match svc d0 hl he] at h
        obtain ⟨h1, h2⟩ := Prod.mk.injEq .. ▸ (Option.some.injEq .. ▸ h)
        obtain rfl := Option.some.injEq .. ▸ h2
        subst h1
        exact ⟨rfl, readProcStatData_ok d0 hl, he⟩
      · rw [verify_mismatch svc d0 hl he] at h
        cases h

/-! ## Equation lemmas for scrape -/

theorem scrape_sentinel (svc : Service) (env : ScrapeEnv)
    (h : svc.pid = -1) :
    scrape svc env =
      match svc.findPID env.find with
      | none => none
      | some (s, none) => some (s, true)
      | some (s, some d) => some (s.updateSnapshot d, false) := by
  cases hfp : svc.findPID env.find with
  | none => simp [scrape, h, hfp]
  | some sr =>
    obtain ⟨s, r⟩ := sr
    cases r with
    | none => simp [scrape, h, hfp]
    | some d => simp [scrape, h, hfp]

theorem scrape_sentinel_err (svc : Service) (env : ScrapeEnv) (s : Service)
    (h : svc.pid = -1) (hf : svc.findPID env.find = some (s, none)) :
    scrape svc env = some (s, true) := by
  rw [scrape_sentinel svc env h, hf]

theorem scrape_sentinel_ok (svc : Service) (env : ScrapeEnv) (s : Service)
    (d : List Int) (h : svc.pid = -1)
    (hf : svc.findPID env.find = some (s, some d)) :
    scrape svc env = some (s.updateSnapshot d, false) := by
  rw [scrape_sentinel svc env h, hf]

theorem scrape_verify_ok (svc : Service) (env : ScrapeEnv) (d : List Int)
    (h : svc.pid ≠ -1)
    (hv : svc.verifyStillRunning env.verifyRead = some (svc, some d)) :
    scrape svc env = some (svc.updateSnapshot d, false) := by
  simp [scrape, h, hv]

theorem scrape_verify_fail (svc : Service) (env : ScrapeEnv)
    (h : svc.pid ≠ -1)
    (hv : svc.verifyStillRunning env.verifyRead = some (svc.reset, none)) :
    scrape svc env = scrape svc.reset env := by
  have hr : (svc.reset).pid = -1 := rfl
  rw [scrape_sentinel svc.reset env hr]
  cases hfp : (svc.reset).findPID env.find with
  | none => simp [scrape, h, hv, hr, hfp]
  | some sr =>
    obtain ⟨s, r⟩ := sr
    cases r with
    | none => simp [scrape, h, hv, hr, hfp]
    | some d => simp [scrape, h, hv, hr, hfp]

theorem scrape_verify_fatal (svc : Service) (env : ScrapeEnv)
    (h : svc.pid ≠ -1)
    (hv : svc.verifyStillRunning env.verifyRead = none) :
    scrape svc env = none := by
  simp [scrape, h, hv]

theorem scrape_sentinel_fatal (svc : Service) (env : ScrapeEnv)
    (h : svc.pid = -1) (hf : svc.findPID env.find = none) :
    scrape svc env = none := by
  rw [scrape_sentinel svc env h, hf]

/-! ## updateSnapshot projections -/

theorem updateSnapshot_pid (svc : Service) (d : List Int) :
    (svc.updateSnapshot d).pid = svc.pid := rfl

theorem updateSnapshot_startTime (svc : Service) (d : List Int) :
    (svc.updateSnapshot d).procStatStartTime = svc.procStatStartTime := rfl

theorem updateSnapshot_cpuSelf (svc : Service) (d : List Int) :
    (svc.updateSnapshot d).procStatCPUSelfTime =
      statField d PROC_PID_STAT_UTIME + statField d PROC_PID_STAT_STIME := rfl

theorem updateSnapshot_cpuTotal (svc : Service) (d : List Int) :
    (svc.updateSnapshot d).procStatCPUTime =
      (statField d PROC_PID_STAT_UTIME + statField d PROC_PID_STAT_STIME)
        + statField d PROC_PID_STAT_CUTIME
        + statField d PROC_PID_STAT_CSTIME := rfl

theorem updateSnapshot_vsize (svc : Service) (d : List Int) :
    (svc.updateSnapshot d).procStatVSize =
      statField d PROC_PID_STAT_VSIZE := rfl

theorem updateSnapshot_rss (svc : Service) (d : List Int) :
    (svc.updateSnapshot d).procStatRSS =
      statField d PROC_PID_STAT_RSS := rfl

/-! ## Case decomposition of a completed scrape -/

/-- Every non-fatal scrape ends in one of three ways: the not-running
return with a fully reset state; the re-verification success, populating
the snapshot on the unchanged identity; or a committed discovery (started
either from the incoming not-running state or from the reset performed by a
failed re-verification), populating the snapshot on the fresh identity. -/
theorem scrape_some_cases (svc : Service) (env : ScrapeEnv) (s : Service)
    (e : Bool) (h : scrape svc env = some (s, e)) :
    (e = true ∧ isResetState s) ∨
    (e = false ∧ ∃ d, s = svc.updateSnapshot d ∧ svc.pid ≠ -1 ∧
      svc.verifyStillRunning env.verifyRead = some (svc, some d)) ∨
    (e = false ∧ ∃ b s2 d, (b = svc ∨ b = svc.reset) ∧
      b.findPID env.find = some (s2, some d) ∧ s = s2.updateSnapshot d) := by
  by_cases hpid : svc.pid = -1
  · rw [scrape_sentinel svc env hpid] at h
    cases hfp : svc.findPID env.find with
    | none =>
      rw [hfp] at h
      cases h
    | some sr =>
      obtain ⟨s2, r⟩ := sr
      cases r with
      | none =>
        rw [hfp] at h
        obtain ⟨h1, h2⟩ := Prod.mk.injEq .. ▸ (Option.some.injEq .. ▸ h)
        subst h1
        subst h2
        exact Or.inl ⟨rfl, findPID_err_isReset svc env.find s2 hfp⟩
      | some d =>
        rw [hfp] at h
        obtain ⟨h1, h2⟩ := Prod.mk.injEq .. ▸ (Option.some.injEq .. ▸ h)
        subst h1
        subst h2
        exact Or.inr (Or.inr ⟨rfl, svc, s2, d, Or.inl rfl, hfp, rfl⟩)
  · cases hv : svc.verifyStillRunning env.verifyRead with
    | none =>
      rw [scrape_verify_fatal svc env hpid hv] at h
      cases h
    | some sr =>
      obtain ⟨s1, r⟩ := sr
      cases r with
      | some d =>
        obtain ⟨hs1, hrd, hse⟩ := verify_ok_shape svc env.verifyRead s1 d hv
        rw [hs1] at hv
        rw [scrape_verify_ok svc env d hpid hv] at h
        obtain ⟨h1, h2⟩ := Prod.mk.injEq .. ▸ (Option.some.injEq .. ▸ h)
        subst h1
        subst h2
        exact Or.inr (Or.inl ⟨rfl, d, rfl, hpid, by rw [hs1]⟩)
      | none =>
        obtain rfl := verify_fail_shape svc env.verifyRead s1 hv
        rw [scrape_verify_fail svc env hpid hv] at h
        rw [scrape_sentinel svc.reset env rfl] at h
        cases hfp : (svc.reset).findPID env.find with
        | none =>
          rw [hfp] at h
          cases h
        | some sr2 =>
          obtain ⟨s2, r2⟩ := sr2
          cases r2 with
          | none =>
            rw [hfp] at h
            obtain ⟨h1, h2⟩ := Prod.mk.injEq .. ▸ (Option.some.injEq .. ▸ h)
            subst h1
            subst h2
            exact Or.inl ⟨rfl, findPID_err_isReset svc.reset env.find s2 hfp⟩
          | some d =>
            rw [hfp] at h
            obtain ⟨h1, h2⟩ := Prod.mk.injEq .. ▸ (Option.some.injEq .. ▸ h)
            subst h1
            subst h2
            exact Or.inr (Or.inr ⟨rfl, svc.reset, s2, d, Or.inr rfl, hfp, rfl⟩)

/-! ## Concrete sample data (the specification's §8 scenario) -/

/-- A 25-field stat record with user-ticks 10, kernel-ticks 5, zero
child ticks, start-tick 1000, vsize 4096000 and rss 50. -/
def statRecAlpha : List Int :=
  [0, 0, 0, 0, 0, 0, 0, 0, 0, 0, 0, 0, 0, 0, 0,
   10, 5, 0, 0, 0, 0, 1000, 4096000, 50, 0]

/-- Service "alpha" believed running with pid 500 and start-tick 1000. -/
def svcAlpha : Service :=
  { name := "alpha"
    pid := 500
    procStatStartTime := 1000
    procStatCPUSelfTime := 0
    procStatCPUTime := 0
    procStatVSize := 0
    procStatRSS := 0 }

/-- A discovery environment in which both status queries report pid 500
and the stat read delivers `statRecAlpha`. -/
def envAlphaFind : FindPIDEnv :=
  { ask1 := some 500
    statRead := .record statRecAlpha
    ask2 := some 500 }

/-- A scrape environment whose re-verification read delivers
`statRecAlpha` and whose discovery answers are `envAlphaFind`. -/
def envAlpha : ScrapeEnv :=
  { verifyRead := .record statRecAlpha
    find := envAlphaFind }

/-- A scrape environment in which the status source reports the service
not running. -/
def envNotRunning : ScrapeEnv :=
  { verifyRead := .gone
    find := { ask1 := none, statRead := .gone, ask2 := none } }

/-! ## C2: the discovery protocol of findPID -/

/-- **C2.** Starting a discovery attempt, `findPID` commits the transition
to Running — storing the step-1 pid together with the start-tick of the
step-2 record and returning that record — exactly when step 1 reports a
pid, the guarded stat read succeeds, and step 3 reports the same pid; in
every other completed case the call ends with pid and start-tick at the
sentinel and the not-running error returned. -/
theorem findPID_commit_characterization (svc : Service) (env : FindPIDEnv)
    (hnf : svc.findPID env ≠ none) :
    ((∃ s d, svc.findPID env = some (s, some d)) ↔
      (∃ p d, env.ask1 = some p ∧
        readProcStatData env.statRead = some (some d) ∧ env.ask2 = some p)) ∧
    (∀ p d, env.ask1 = some p →
      readProcStatData env.statRead = some (some d) → env.ask2 = some p →
      svc.findPID env =
        some ({ svc with
                pid := p
                procStatStartTime := statField d PROC_PID_STAT_STARTTIME },
              some d)) ∧
    (∀ s, svc.findPID env = some (s, none) →
      s.pid = -1 ∧ s.procStatStartTime = -1) ∧
    (¬ (∃ p d, env.ask1 = some p ∧
        readProcStatData env.statRead = some (some d) ∧ env.ask2 = some p) →
      ∃ s, svc.findPID env = some (s, none) ∧
        s.pid = -1 ∧ s.procStatStartTime = -1) := by
  have hcommit : ∀ p d, env.ask1 = some p →
      readProcStatData env.statRead = some (some d) → env.ask2 = some p →
      svc.findPID env =
        some ({ svc with
                pid := p
                procStatStartTime := statField d PROC_PID_STAT_STARTTIME },
              some d) :=
    fun p d h1 hrd h2 => findPID_commit_of svc env p d h1 hrd h2
  have herr : ∀ s, svc.findPID env = some (s, none) →
      s.pid = -1 ∧ s.procStatStartTime = -1 := by
    intro s h
    obtain ⟨h1, h2, _⟩ := findPID_err_isReset svc env s h
    exact ⟨h1, h2⟩
  have hiff : (∃ s d, svc.findPID env = some (s, some d)) ↔
      (∃ p d, env.ask1 = some p ∧
        readProcStatData env.statRead = some (some d) ∧ env.ask2 = some p) := by
    constructor
    · rintro ⟨s, d, h⟩
      obtain ⟨h1, h2, h3, h4, _⟩ := findPID_some_shape svc env s d h
      exact ⟨s.pid, d, h1, by rw [h2]; exact readProcStatData_ok d h3, h4⟩
    · rintro ⟨p, d, h1, hrd, h2⟩
      exact ⟨_, d, hcommit p d h1 hrd h2⟩
  refine ⟨hiff, hcommit, herr, ?_⟩
  intro hncond
  cases hres : svc.findPID env with
  | none => exact absurd hres hnf
  | some sr =>
    obtain ⟨s, rr⟩ := sr
    cases rr with
    | some d => exact absurd (hiff.mp ⟨s, d, hres⟩) hncond
    | none => exact ⟨s, rfl, herr s hres⟩

/-- Witness for C2: the committed transition on the §8 scenario. -/
theorem findPID_commit_characterization_witness :
    (svcAlpha.reset).findPID envAlphaFind =
      some ({ svcAlpha.reset with pid := 500, procStatStartTime := 1000 },
            some statRecAlpha) := by
  have h := (findPID_commit_characterization svcAlpha.reset envAlphaFind
      (by decide)).2.1 500 statRecAlpha rfl (by decide) rfl
  exact h

/-! ## C3: re-verification of a Running service -/

/-- **C3.** Re-verification resets the identity to the sentinel and
reports not-running exactly when the stat read signals the process gone or
the fresh start-tick differs from the stored one; when the start-tick
matches, the state is unchanged and the fresh record is the one the same
cycle's scrape uses to populate the accounting fields. -/
theorem verifyStillRunning_characterization (svc : Service) (r : StatResult) :
    ((svc.verifyStillRunning r = some (svc.reset, none)) ↔
      (readProcStatData r = some none ∨
       ∃ d, readProcStatData r = some (some d) ∧
         statField d PROC_PID_STAT_STARTTIME ≠ svc.procStatStartTime)) ∧
    ((svc.reset).pid = -1 ∧ (svc.reset).procStatStartTime = -1) ∧
    (∀ s, svc.verifyStillRunning r = some (s, none) → s = svc.reset) ∧
    (∀ d, readProcStatData r = some (some d) →
      statField d PROC_PID_STAT_STARTTIME = svc.procStatStartTime →
      svc.verifyStillRunning r = some (svc, some d)) ∧
    (∀ (env : ScrapeEnv) (d : List Int), svc.pid ≠ -1 → env.verifyRead = r →
      readProcStatData r = some (some d) →
      statField d PROC_PID_STAT_STARTTIME = svc.procStatStartTime →
      scrape svc env = some (svc.updateSnapshot d, false)) := by
  have hkeep : ∀ d, readProcStatData r = some (some d) →
      statField d PROC_PID_STAT_STARTTIME = svc.procStatStartTime →
      svc.verifyStillRunning r = some (svc, some d) := by
    intro d hrd he
    obtain ⟨hsr, hl⟩ := readProcStatData_some_some r d hrd
    subst hsr
    exact verify_match svc d hl he
  refine ⟨⟨?_, ?_⟩, ⟨rfl, rfl⟩, ?_, hkeep, ?_⟩
  · intro h
    cases r with
    | gone => exact Or.inl rfl
    | record d =>
      by_cases hl : d.length < 25
      · rw [verify_short svc d hl] at h
        cases h
      · by_cases he : statField d PROC_PID_STAT_STARTTIME = svc.procStatStartTime
        · rw [verify_match svc d hl he] at h
          obtain ⟨_, h2⟩ := Prod.mk.injEq .. ▸ (Option.some.injEq .. ▸ h)
          cases h2
        · exact Or.inr ⟨d, readProcStatData_ok d hl, he⟩
  · intro h
    cases h with
    | inl h =>
      cases r with
      | gone => exact verify_gone svc
      | record d =>
        by_cases hl : d.length < 25
        · rw [readProcStatData_short d hl] at h
          cases h
        · rw [readProcStatData_ok d hl] at h
          cases Option.some.injEq .. ▸ h
    | inr h =>
      obtain ⟨d, hrd, hne⟩ := h
      obtain ⟨hsr, hl⟩ := readProcStatData_some_some r d hrd
      subst hsr
      exact verify_mismatch svc d hl hne
  · exact fun s h => verify_fail_shape svc r s h
  · intro env d hpid henv hrd he
    subst henv
    exact scrape_verify_ok svc env d hpid (hkeep d hrd he)

/-- Witness for C3: a matching start-tick keeps the service Running and
feeds the fresh record into the cycle's metrics. -/
theorem verifyStillRunning_characterization_witness :
    scrape svcAlpha envAlpha =
      some (svcAlpha.updateSnapshot statRecAlpha, false) :=
  (verifyStillRunning_characterization svcAlpha
      (.record statRecAlpha)).2.2.2.2 envAlpha statRecAlpha
    (by decide) rfl (by decide) (by decide)

/-! ## C1: the uptime metric published by Collect -/

/-- The service state after one committed discovery on the §8 scenario
followed by the snapshot population. -/
def svcAlphaAfter : Service :=
  { name := "alpha"
    pid := 500
    procStatStartTime := 1000
    procStatCPUSelfTime := 15
    procStatCPUTime := 15
    procStatVSize := 4096000
    procStatRSS := 50 }

/-- **C1** (evaluating the code at the failing input).  On the
specification's §8 scenario — tick rate 100, system uptime 50 s, a running
service with start-tick 1000 — `Collect` publishes 400000 as the uptime,
because the source multiplies the tick difference by `_SC_CLK_TCK` where
the specified seconds value is the quotient 40; the not-running sentinel
`-1` branch does follow the claim. -/
theorem collect_uptime_multiplies_instead_of_divides :
    (Collect 100 50 [(svcAlpha.reset, envAlpha)]).map
        (fun out => out.map (fun sm => sm.2.uptimeSeconds)) = some [400000] ∧
    specUptimeSeconds 100 (50 * 100) 1000 = 40 ∧
    ((400000 : Int) ≠ 40) ∧
    (emitServiceMetrics 100 (50 * 100) svcAlpha.reset).uptimeSeconds = -1 := by
  refine ⟨by decide, by decide, by decide, by decide⟩

/-! ## C4: the state invariant -/

/-- **C4.** The invariant — pid is the sentinel iff the start-tick is, and
a not-running service carries an all-zero snapshot — holds after
construction (`reset`) and is preserved by every completed scrape whose
oracle answers are well-formed (reported pids and start-tick fields
non-negative, as the kernel and init system guarantee). -/
theorem stateInvariant_established_and_preserved :
    (∀ svc : Service, stateInvariant svc.reset) ∧
    (∀ (svc : Service) (env : ScrapeEnv) (s : Service) (e : Bool),
      stateInvariant svc → scrapeEnvWF env = true →
      scrape svc env = some (s, e) → stateInvariant s) := by
  refine ⟨reset_stateInvariant, ?_⟩
  intro svc env s e hinv hwf h
  rcases scrape_some_cases svc env s e h with ⟨_, hrs⟩ |
    ⟨_, d, rfl, hpid, _⟩ | ⟨_, b, s2, d, _, hfp, rfl⟩
  · obtain ⟨h1, h2, h3, h4, h5, h6⟩ := hrs
    exact ⟨⟨fun _ => h2, fun _ => h1⟩, fun _ => ⟨h3, h4, h5, h6⟩⟩
  · refine ⟨?_, ?_⟩
    · rw [updateSnapshot_pid, updateSnapshot_startTime]
      exact hinv.1
    · rw [updateSnapshot_pid]
      intro hc
      exact absurd hc hpid
  · obtain ⟨h1, h2, _, _, h5⟩ := findPID_some_shape b env.find s2 d hfp
    have hwfs := Bool.and_eq_true .. ▸ hwf
    have hp : (0 : Int) ≤ s2.pid := by
      have hq := hwfs.1
      rw [h1] at hq
      simpa [statusAnswerWF] using hq
    have hst : (0 : Int) ≤ statField d PROC_PID_STAT_STARTTIME := by
      have hq := hwfs.2
      rw [h2] at hq
      simpa [statResultWF] using hq
    have hs2start : s2.procStatStartTime =
        statField d PROC_PID_STAT_STARTTIME :=
      congrArg Service.procStatStartTime h5
    refine ⟨?_, ?_⟩
    · rw [updateSnapshot_pid, updateSnapshot_startTime, hs2start]
      constructor
      · intro hc
        exfalso
        omega
      · intro hc
        exfalso
        omega
    · rw [updateSnapshot_pid]
      intro hc
      exfalso
      omega

/-- Witness for C4: the invariant after a committed discovery on the §8
scenario. -/
theorem stateInvariant_established_and_preserved_witness :
    stateInvariant svcAlphaAfter :=
  stateInvariant_established_and_preserved.2 svcAlpha.reset envAlpha
    svcAlphaAfter false (by decide) (by decide) (by decide)

/-! ## C5: the CPU accounting arithmetic -/

/-- **C5.** Populating the snapshot sets `cpuSelfTime` to user-ticks plus
kernel-ticks and `cpuTotalTime` to `cpuSelfTime` plus both waited-children
tick fields, so any snapshot with non-negative children fields satisfies
`cpuSelfTime ≤ cpuTotalTime`; and every nil-error scrape ends in exactly
such a snapshot population. -/
theorem scrape_cpu_accounting :
    (∀ (b : Service) (d : List Int),
      (b.updateSnapshot d).procStatCPUSelfTime =
        statField d PROC_PID_STAT_UTIME + statField d PROC_PID_STAT_STIME ∧
      (b.updateSnapshot d).procStatCPUTime =
        (b.updateSnapshot d).procStatCPUSelfTime
          + statField d PROC_PID_STAT_CUTIME
          + statField d PROC_PID_STAT_CSTIME ∧
      (0 ≤ statField d PROC_PID_STAT_CUTIME →
       0 ≤ statField d PROC_PID_STAT_CSTIME →
       (b.updateSnapshot d).procStatCPUSelfTime ≤
         (b.updateSnapshot d).procStatCPUTime)) ∧
    (∀ (svc : Service) (env : ScrapeEnv) (s : Service),
      scrape svc env = some (s, false) →
      ∃ b d, s = Service.updateSnapshot b d) := by
  constructor
  · intro b d
    refine ⟨rfl, rfl, ?_⟩
    intro hcu hcs
    rw [updateSnapshot_cpuSelf, updateSnapshot_cpuTotal]
    omega
  · intro svc env s h
    rcases scrape_some_cases svc env s false h with ⟨hc, _⟩ |
      ⟨_, d, rfl, _, _⟩ | ⟨_, b, s2, d, _, _, rfl⟩
    · cases hc
    · exact ⟨svc, d, rfl⟩
    · exact ⟨s2, d, rfl⟩

/-- Witness for C5: the arithmetic on the §8 record. -/
theorem scrape_cpu_accounting_witness :
    svcAlphaAfter.procStatCPUSelfTime ≤ svcAlphaAfter.procStatCPUTime :=
  (scrape_cpu_accounting.1 svcAlpha statRecAlpha).2.2 (by decide) (by decide)

/-! ## C6: Collect absorbs expected per-service errors -/

theorem scrapeAll_some (pairs : List (Service × ScrapeEnv))
    (h : ∀ p ∈ pairs, scrape p.1 p.2 ≠ none) :
    ∃ ss, scrapeAll pairs = some ss := by
  induction pairs with
  | nil => exact ⟨[], rfl⟩
  | cons p ps ih =>
    obtain ⟨ss, hss⟩ := ih (fun q hq => h q (List.mem_cons_of_mem p hq))
    cases hsc : scrape p.1 p.2 with
    | none => exact absurd hsc (h p (List.mem_cons_self p ps))
    | some se =>
      obtain ⟨s, b⟩ := se
      exact ⟨s :: ss, by simp [scrapeAll, hsc, hss]⟩

theorem scrapeAll_length (pairs : List (Service × ScrapeEnv))
    (ss : List Service) (h : scrapeAll pairs = some ss) :
    ss.length = pairs.length := by
  induction pairs generalizing ss with
  | nil =>
    cases h
    rfl
  | cons p ps ih =>
    cases hsc : scrape p.1 p.2 with
    | none =>
      rw [scrapeAll, hsc] at h
      cases h
    | some se =>
      obtain ⟨s, b⟩ := se
      rw [scrapeAll, hsc] at h
      cases hss : scrapeAll ps with
      | none =>
        rw [hss] at h
        cases h
      | some ss2 =>
        rw [hss] at h
        cases h
        simp [ih ss2 hss]

theorem scrapeAll_get (pairs : List (Service × ScrapeEnv))
    (ss : List Service) (h : scrapeAll pairs = some ss) :
    ∀ (i : Nat) (hi : i < pairs.length) (ho : i < ss.length),
      ∃ b, scrape (pairs.get ⟨i, hi⟩).1 (pairs.get ⟨i, hi⟩).2 =
        some (ss.get ⟨i, ho⟩, b) := by
  induction pairs generalizing ss with
  | nil =>
    intro i hi
    exact absurd hi (Nat.not_lt_zero i)
  | cons p ps ih =>
    cases hsc : scrape p.1 p.2 with
    | none =>
      rw [scrapeAll, hsc] at h
      cases h
    | some se =>
      obtain ⟨s, b⟩ := se
      rw [scrapeAll, hsc] at h
      cases hss : scrapeAll ps with
      | none =>
        rw [hss] at h
        cases h
      | some ss2 =>
        rw [hss] at h
        cases h
        intro i hi ho
        cases i with
        | zero => exact ⟨b, hsc⟩
        | succ j =>
          exact ih ss2 hss j (Nat.lt_of_succ_lt_succ hi)
            (Nat.lt_of_succ_lt_succ ho)

/-- **C6.** When no environment fault occurs, `Collect` publishes the full
six-sample block for every tracked service: it never fails on the expected
per-service errors, every service's block is computed from that service's
own scrape outcome alone, and a service whose scrape returned the
not-running error is published with the sentinel/zero values. -/
theorem collect_absorbs_expected_errors (clk u : Int)
    (pairs : List (Service × ScrapeEnv))
    (h : ∀ p ∈ pairs, scrape p.1 p.2 ≠ none) :
    ∃ out, Collect clk u pairs = some out ∧ out.length = pairs.length ∧
      (∀ (i : Nat) (hi : i < pairs.length) (ho : i < out.length),
        collectOne clk (u * clk) (pairs.get ⟨i, hi⟩) =
          some (out.get ⟨i, ho⟩)) ∧
      (∀ sm ∈ out, sm.2 = emitServiceMetrics clk (u * clk) sm.1) ∧
      (∀ (q : Service × ScrapeEnv) (s : Service),
        scrape q.1 q.2 = some (s, true) →
        emitServiceMetrics clk (u * clk) s =
          { processStart := -1, cpuSelfTime := 0, cpuTime := 0,
            vsize := 0, rss := 0, uptimeSeconds := -1 }) := by
  obtain ⟨ss, hss⟩ := scrapeAll_some pairs h
  have hlen := scrapeAll_length pairs ss hss
  refine ⟨ss.map (fun s => (s, emitServiceMetrics clk (u * clk) s)),
    ?_, ?_, ?_, ?_, ?_⟩
  · rw [Collect, hss]
  · rw [List.length_map]
    exact hlen
  · intro i hi ho
    rw [List.length_map] at ho
    obtain ⟨b, hb⟩ := scrapeAll_get pairs ss hss i hi ho
    rw [collectOne, hb, List.get_map]
  · intro sm hsm
    obtain ⟨s, _, rfl⟩ := List.mem_map.mp hsm
    rfl
  · intro q s hq
    rcases scrape_some_cases q.1 q.2 s true hq with ⟨_, hrs⟩ |
      ⟨hc, _⟩ | ⟨hc, _⟩
    · obtain ⟨h1, h2, h3, h4, h5, h6⟩ := hrs
      rw [emitServiceMetrics, h1, h2, h3, h4, h5, h6]
      rfl
    · cases hc
    · cases hc

/-- Witness for C6: a cycle over one running and one not-running service
completes. -/
theorem collect_absorbs_expected_errors_witness :
    (Collect 100 50
      [(svcAlpha.reset, envAlpha), (svcAlpha.reset, envNotRunning)]).isSome
      = true := by
  obtain ⟨out, hout, -⟩ := collect_absorbs_expected_errors 100 50
    [(svcAlpha.reset, envAlpha), (svcAlpha.reset, envNotRunning)] (by decide)
  rw [hout]
  rfl

/-! ## C8: idempotence while the status source reports not-running -/

/-- A scrape whose first status answer is not-running, on a service in the
sentinel state, returns the reset state with the not-running error,
whatever the stat-read and second-query oracles hold: neither
`verifyStillRunning` nor the stat reader influences the outcome. -/
theorem scrape_ask1_none (svc : Service) (env : ScrapeEnv)
    (hpid : svc.pid = -1) (ha : env.find.ask1 = none) :
    scrape svc env = some (svc.reset, true) := by
  have hf : svc.findPID env.find = some (svc.reset, none) := by
    cases henv : env.find with
    | mk a1 sr a2 =>
      rw [henv] at ha
      have ha2 : a1 = none := ha
      subst ha2
      exact findPID_ask1_none svc sr a2
  exact scrape_sentinel_err svc env svc.reset hpid hf

theorem pollTrace_replicate :
    ∀ (envs : List ScrapeEnv) (svc : Service), svc.pid = -1 →
      (∀ e ∈ envs, e.find.ask1 = none) →
      pollTrace svc envs = some (List.replicate envs.length svc.reset) := by
  intro envs
  induction envs with
  | nil =>
    intro svc _ _
    rfl
  | cons e es ih =>
    intro svc hpid hnr
    have he : scrape svc e = some (svc.reset, true) :=
      scrape_ask1_none svc e hpid (hnr e (List.mem_cons_self e es))
    have ihe := ih svc.reset rfl
      (fun e2 h2 => hnr e2 (List.mem_cons_of_mem e h2))
    rw [reset_idem] at ihe
    simp [pollTrace, he, ihe, List.replicate_succ]

/-- **C8.** If the status source reports the service not running on every
cycle, the state after each cycle keeps pid and start-tick at the sentinel,
no transition to Running ever happens, and the outcome is independent of
the stat-read oracles — the kernel accounting reader is never consulted. -/
theorem pollTrace_stays_not_running (svc : Service) (envs : List ScrapeEnv)
    (hpid : svc.pid = -1)
    (hnr : ∀ e ∈ envs, e.find.ask1 = none) :
    pollTrace svc envs = some (List.replicate envs.length svc.reset) ∧
    (∀ s ∈ List.replicate envs.length svc.reset,
      s.pid = -1 ∧ s.procStatStartTime = -1) ∧
    (∀ envs2 : List ScrapeEnv, envs2.length = envs.length →
      (∀ e ∈ envs2, e.find.ask1 = none) →
      pollTrace svc envs2 = pollTrace svc envs) := by
  refine ⟨pollTrace_replicate envs svc hpid hnr, ?_, ?_⟩
  · intro s hs
    obtain rfl := List.eq_of_mem_replicate hs
    exact ⟨rfl, rfl⟩
  · intro envs2 hlen hnr2
    rw [pollTrace_replicate envs svc hpid hnr,
      pollTrace_replicate envs2 svc hpid hnr2, hlen]

/-- Witness for C8: two not-running cycles on a freshly reset service. -/
theorem pollTrace_stays_not_running_witness :
    pollTrace svcAlpha.reset [envNotRunning, envNotRunning] =
      some (List.replicate 2 svcAlpha.reset) :=
  (pollTrace_stays_not_running svcAlpha.reset [envNotRunning, envNotRunning]
    (by decide) (by decide)).1

/-! ## C9: failed re-verification triggers rediscovery in the same call -/

/-- **C9.** Within one scrape of a Running service, when re-verification
fails (process gone or start-tick changed) and the discovery protocol then
commits on a fresh pid, the same call ends Running again with the fresh
identity and the fresh record's metrics — no sentinel cycle in between. -/
theorem scrape_reverify_fail_rediscovers (svc : Service) (env : ScrapeEnv)
    (p : Int) (d : List Int)
    (hrun : svc.pid ≠ -1)
    (hfail : readProcStatData env.verifyRead = some none ∨
      ∃ d0, readProcStatData env.verifyRead = some (some d0) ∧
        statField d0 PROC_PID_STAT_STARTTIME ≠ svc.procStatStartTime)
    (h1 : env.find.ask1 = some p)
    (h2 : readProcStatData env.find.statRead = some (some d))
    (h3 : env.find.ask2 = some p) :
    scrape svc env =
      some (({ svc.reset with
               pid := p
               procStatStartTime := statField d PROC_PID_STAT_STARTTIME
             }).updateSnapshot d, false) ∧
    (({ svc.reset with
        pid := p
        procStatStartTime := statField d PROC_PID_STAT_STARTTIME
      }).updateSnapshot d).pid = p ∧
    (({ svc.reset with
        pid := p
        procStatStartTime := statField d PROC_PID_STAT_STARTTIME
      }).updateSnapshot d).procStatStartTime =
      statField d PROC_PID_STAT_STARTTIME := by
  have hv : svc.verifyStillRunning env.verifyRead =
      some (svc.reset, none) := by
    cases hfail with
    | inl hg =>
      cases hgr : env.verifyRead with
      | gone => exact verify_gone svc
      | record d0 =>
        rw [hgr] at hg
        by_cases hl : d0.length < 25
        · rw [readProcStatData_short d0 hl] at hg
          cases hg
        · rw [readProcStatData_ok d0 hl] at hg
          cases Option.some.injEq .. ▸ hg
    | inr hm =>
      obtain ⟨d0, hrd, hne⟩ := hm
      obtain ⟨hsr, hl⟩ := readProcStatData_some_some env.verifyRead d0 hrd
      rw [hsr]
      exact verify_mismatch svc d0 hl hne
  have hstep := scrape_verify_fail svc env hrun hv
  have hfind := findPID_commit_of svc.reset env.find p d h1 h2 h3
  rw [hstep, scrape_sentinel_ok svc.reset env _ d rfl hfind]
  exact ⟨rfl, rfl, rfl⟩

/-- Witness for C9: a stale start-tick (999 stored, 1000 fresh) followed by
a committed rediscovery of pid 500 in the same scrape. -/
theorem scrape_reverify_fail_rediscovers_witness :
    scrape { svcAlpha with procStatStartTime := 999 } envAlpha =
      some (svcAlphaAfter, false) :=
  (scrape_reverify_fail_rediscovers
    { svcAlpha with procStatStartTime := 999 } envAlpha 500 statRecAlpha
    (by decide)
    (Or.inr ⟨statRecAlpha, by decide, by decide⟩)
    rfl (by decide) rfl).1

/-! ## C10: one tracker per distinct service name -/

theorem overwrite_keys (m : List (String × Service)) (k : String)
    (v : Service) :
    ((m.map (fun kv => if kv.1 = k then (k, v) else kv)).map Prod.fst) =
      m.map Prod.fst := by
  induction m with
  | nil => rfl
  | cons a m ih =>
    by_cases ha : a.1 = k
    · simp [ha, ih]
    · simp [ha, ih]

theorem mapInsert_keys (m : List (String × Service)) (k : String)
    (v : Service) :
    (mapInsert m k v).map Prod.fst =
      if m.any (fun kv => kv.1 = k) then m.map Prod.fst
      else m.map Prod.fst ++ [k] := by
  unfold mapInsert
  by_cases h : m.any (fun kv => kv.1 = k) = true
  · rw [if_pos h, if_pos h]
    exact overwrite_keys m k v
  · rw [if_neg h, if_neg h, List.map_append]
    rfl

theorem mapInsert_mem_keys (m : List (String × Service)) (k : String)
    (v : Service) (n : String) :
    (n ∈ (mapInsert m k v).map Prod.fst) ↔
      (n ∈ m.map Prod.fst ∨ n = k) := by
  rw [mapInsert_keys]
  by_cases h : m.any (fun kv => kv.1 = k) = true
  · rw [if_pos h]
    constructor
    · exact Or.inl
    · rintro (hn | rfl)
      · exact hn
      · obtain ⟨kv, hkv, he⟩ := List.any_eq_true.mp h
        exact List.mem_map.mpr ⟨kv, hkv, of_decide_eq_true he⟩
  · rw [if_neg h]
    simp only [List.mem_append, List.mem_singleton]

theorem mapInsert_nodup (m : List (String × Service)) (k : String)
    (v : Service) (h : (m.map Prod.fst).Nodup) :
    ((mapInsert m k v).map Prod.fst).Nodup := by
  rw [mapInsert_keys]
  by_cases ha : m.any (fun kv => kv.1 = k) = true
  · rw [if_pos ha]
    exact h
  · rw [if_neg ha, List.nodup_append]
    refine ⟨h, List.nodup_singleton k, ?_⟩
    intro x hx hxk
    obtain rfl := List.mem_singleton.mp hxk
    obtain ⟨kv, hkv, he⟩ := List.mem_map.mp hx
    have : m.any (fun kv => kv.1 = x) = true :=
      List.any_eq_true.mpr ⟨kv, hkv, decide_eq_true he⟩
    exact ha this

theorem mapInsert_forall (P : String × Service → Prop)
    (m : List (String × Service)) (k : String) (v : Service)
    (hm : ∀ kv ∈ m, P kv) (hv : P (k, v)) :
    ∀ kv ∈ mapInsert m k v, P kv := by
  intro kv hkv
  unfold mapInsert at hkv
  by_cases h : m.any (fun x => x.1 = k) = true
  · rw [if_pos h] at hkv
    obtain ⟨a, ha, he⟩ := List.mem_map.mp hkv
    by_cases hak : a.1 = k
    · rw [if_pos hak] at he
      subst he
      exact hv
    · rw [if_neg hak] at he
      subst he
      exact hm a ha
  · rw [if_neg h] at hkv
    rcases List.mem_append.mp hkv with h1 | h2
    · exact hm kv h1
    · obtain rfl := List.mem_singleton.mp h2
      exact hv

theorem newSvcCollectorAux (names : List String) :
    ∀ m : List (String × Service),
      (m.map Prod.fst).Nodup →
      (∀ kv ∈ m, kv.2 = (initService kv.1).reset) →
      (((names.foldl (fun acc n => mapInsert acc n (initService n).reset) m).map
          Prod.fst).Nodup ∧
       (∀ x, x ∈ (names.foldl
            (fun acc n => mapInsert acc n (initService n).reset) m).map
              Prod.fst ↔
          (x ∈ m.map Prod.fst ∨ x ∈ names)) ∧
       (∀ kv ∈ names.foldl
            (fun acc n => mapInsert acc n (initService n).reset) m,
          kv.2 = (initService kv.1).reset)) := by
  induction names with
  | nil =>
    intro m h1 h2
    exact ⟨h1, fun x => by simp, h2⟩
  | cons n ns ih =>
    intro m h1 h2
    have step := ih (mapInsert m n (initService n).reset)
      (mapInsert_nodup m n (initService n).reset h1)
      (mapInsert_forall (fun kv => kv.2 = (initService kv.1).reset)
        m n (initService n).reset h2 rfl)
    refine ⟨step.1, ?_, step.2.2⟩
    intro x
    rw [List.foldl_cons, step.2.1 x, mapInsert_mem_keys]
    simp only [List.mem_cons]
    tauto

theorem countP_eq_one_of_nodup_mem (l : List String) (n : String)
    (hd : l.Nodup) (hm : n ∈ l) : l.countP (fun x => x = n) = 1 := by
  induction l with
  | nil => cases hm
  | cons a l ih =>
    rw [List.countP_cons]
    by_cases ha : a = n
    · subst ha
      have hnl : a ∉ l := (List.nodup_cons.mp hd).1
      have hz : l.countP (fun x => x = a) = 0 := by
        rw [List.countP_eq_zero]
        intro x hx
        simp only [decide_eq_true_eq]
        intro he
        exact hnl (he ▸ hx)
      simp [hz]
    · have hm2 : n ∈ l := by
        rcases List.mem_cons.mp hm with rfl | h2
        · exact absurd rfl ha
        · exact h2
      rw [ih (List.nodup_cons.mp hd).2 hm2]
      simp [ha]

/-- **C10.** `newSvcCollector` keeps exactly one tracker per distinct
service name: the keys of the service map are duplicate-free, a name is
tracked iff it was on the command line, a listed name owns exactly one
entry (so it is scraped and published once per cycle), and every entry is
the freshly constructed, reset tracker for its own name. -/
theorem newSvcCollector_one_tracker_per_name (names : List String) :
    ((newSvcCollector names).map Prod.fst).Nodup ∧
    (∀ n, n ∈ names ↔ n ∈ (newSvcCollector names).map Prod.fst) ∧
    (∀ n, n ∈ names →
      (newSvcCollector names).countP (fun kv => kv.1 = n) = 1) ∧
    (∀ kv ∈ newSvcCollector names, kv.2 = (initService kv.1).reset) := by
  have base := newSvcCollectorAux names [] (by simp) (by simp)
  have hmem : ∀ n, n ∈ names ↔ n ∈ (newSvcCollector names).map Prod.fst := by
    intro n
    rw [newSvcCollector, base.2.1 n]
    simp
  refine ⟨base.1, hmem, ?_, base.2.2⟩
  intro n hn
  have hcp : (newSvcCollector names).countP (fun kv => kv.1 = n) =
      ((newSvcCollector names).map Prod.fst).countP (fun x => x = n) := by
    rw [List.countP_map]
    rfl
  rw [hcp]
  exact countP_eq_one_of_nodup_mem ((newSvcCollector names).map Prod.fst) n
    base.1 ((hmem n).mp hn)

/-- Witness for C10: a duplicated name is tracked once. -/
theorem newSvcCollector_one_tracker_per_name_witness :
    (newSvcCollector ["cron", "sshd", "cron"]).countP
      (fun kv => kv.1 = "cron") = 1 :=
  (newSvcCollector_one_tracker_per_name ["cron", "sshd", "cron"]).2.2.1
    "cron" (by decide)

/-! ## C7: the length guard versus the indices actually read -/

/-- **C7.** In the full version, every record the `< 25` guard accepts has
all seven subsequently read field indices in bounds; in the reduced
version (`src/exporter.go`), the `< 20` guard accepts a record of exactly
20 fields for which the start-tick index 21 is out of bounds, so the guard
there does not establish the claimed bound. -/
theorem statRecord_guard_bounds :
    (∀ fields : List String, statRecordAcceptedFull fields = true →
      ∀ i ∈ statIndicesReadFull, i < fields.length) ∧
    (statRecordAcceptedV0 (List.replicate 20 "0") = true ∧
      ¬ PROC_PID_STAT_STARTTIME < (List.replicate 20 "0").length ∧
      PROC_PID_STAT_STARTTIME ∈ statIndicesReadV0) := by
  refine ⟨?_, by decide, by decide, by decide⟩
  intro fields hacc i hi
  have hlen : ¬ fields.length < 25 := by
    by_contra hc
    rw [statRecordAcceptedFull, if_pos hc] at hacc
    cases hacc
  fin_cases hi <;>
    simp only [PROC_PID_STAT_UTIME, PROC_PID_STAT_STIME,
      PROC_PID_STAT_CUTIME, PROC_PID_STAT_CSTIME, PROC_PID_STAT_STARTTIME,
      PROC_PID_STAT_VSIZE, PROC_PID_STAT_RSS] <;>
    omega

/-- Witness for C7: the full version's guard covers the start-tick index on
a 25-field record, while the reduced version's guard accepts the 20-field
record. -/
theorem statRecord_guard_bounds_witness :
    PROC_PID_STAT_STARTTIME < (List.replicate 25 "0").length ∧
    statRecordAcceptedV0 (List.replicate 20 "0") = true :=
  ⟨statRecord_guard_bounds.1 (List.replicate 25 "0") (by decide)
      PROC_PID_STAT_STARTTIME (by decide),
   statRecord_guard_bounds.2.1⟩

end ServiceExporter
